import Mathlib

/-!
Shallow embedding of the Guest-Pass visit lifecycle subsystem
(`src/server.js`): the visit data model, the gate validator
(`POST /api/visits/validate`), the visit-code generator
(`GET /api/visits/generate-code`), visit creation (`POST /api/visits`),
visit update (`PUT /api/visits/:id`) and check-in
(`POST /api/visits/:id/checkin`).

Timestamps and calendar dates are modelled as natural numbers (a
`scheduled_date` is a day ordinal, so the route's date-only comparison
`new Date(visit.date) < today` with the time-of-day zeroed becomes `<`
on `Nat`).  The relational store is a record of lists; `SELECT ... LIMIT 1`
relates to `List.head?` and `WHERE` filters to `List.find?`/`List.filter`.
-/

namespace GuestPass

/-- A row of the `visitors` table (`src/server.js` uses columns
`id`, `full_name`, `email`, `phone`, `company`, `updated_at`).
`email` and `company` are nullable. -/
structure Visitor where
  id : Nat
  full_name : String
  email : Option String
  phone : String
  company : Option String
  created_at : Nat
  updated_at : Nat
deriving DecidableEq, Repr

/-- A row of the `executives` table joined with its `users` profile row
(`u.full_name`, `u.department`).  The executive identity is a UUID-shaped
string.  The joined user fields are stored inline: the spec (§3) makes the
user link part of the executive entity, and the subsystem only reads them. -/
structure Executive where
  id : String
  is_active : Bool
  user_full_name : String
  user_department : String
deriving DecidableEq, Repr

/-- A row of the `visits` table, with the columns the subsystem touches. -/
structure Visit where
  id : Nat
  visit_code : String
  visitor_id : Nat
  executive_id : String
  scheduled_date : Nat
  scheduled_time_from : String
  scheduled_time_to : String
  purpose_of_visit : String
  visit_type : String
  visit_status : String
  approval_status : String
  approved_at : Option Nat
  rejection_reason : Option String
  actual_checkin_time : Option Nat
  actual_checkout_time : Option Nat
  created_at : Nat
  updated_at : Nat
deriving DecidableEq, Repr

/-- The relational store.  `nextVisitorId` / `nextVisitId` model the
store's id sequences. -/
structure DB where
  visitors : List Visitor
  executives : List Executive
  visits : List Visit
  nextVisitorId : Nat
  nextVisitId : Nat
deriving DecidableEq, Repr

/-! ## Visit code generator (`GET /api/visits/generate-code`) -/

/-- The `LIKE` pattern prefix built at `src/server.js:113`:
an SQL pattern `GC-<year>-%` matches exactly the strings with this prefix. -/
def codePre (year : Nat) : String := "GC-" ++ toString year ++ "-"

/-- Tests that `p` is a prefix of `s` (the `LIKE 'GC-<year>-%'` filter). -/
def hasPre (p s : String) : Bool := s.take p.length == p

/-- The `ORDER BY visit_code DESC LIMIT 1` selection: the lexicographically greatest
element of a list of codes, if any. -/
def maxCode : List String → Option String
  | [] => none
  | c :: cs => some (cs.foldl (fun a b => if a < b then b else a) c)

/-- The JS regex match `lastCode.match(/(\d{6})$/)` at `src/server.js:120`:
succeeds exactly when the last six characters are all digits, capturing
them. -/
def matchTrailing6 (s : String) : Option String :=
  let cs := s.data
  if cs.length < 6 then none
  else if (cs.drop (cs.length - 6)).all Char.isDigit then
    some (String.mk (cs.drop (cs.length - 6)))
  else none

/-- JS `parseInt` on a digit string (base 10, leading zeros allowed). -/
def digitsToNat (s : String) : Nat :=
  s.data.foldl (fun a c => 10 * a + (c.toNat - '0'.toNat)) 0

/-- JS `String(n).padStart(6, '0')` at `src/server.js:127`. -/
def padStart6 (s : String) : String :=
  if s.length < 6 then String.mk (List.replicate (6 - s.length) '0' ++ s.data)
  else s

/-- The code generator of `src/server.js:102-135`: take the greatest stored
code with prefix `GC-<year>-`; if its trailing six characters are digits,
the next sequence number is that value plus one, otherwise (including when
no code matches the prefix) it is 1; format zero-padded to six digits. -/
def generateCode (codes : List String) (year : Nat) : String :=
  let nextNumber : Nat :=
    match maxCode (codes.filter (fun c => hasPre (codePre year) c)) with
    | none => 1
    | some lastCode =>
      match matchTrailing6 lastCode with
      | some d => digitsToNat d + 1
      | none => 1
  codePre year ++ padStart6 (toString nextNumber)

/-! ## Gate validator (`POST /api/visits/validate`) -/

/-- The row shape produced by the validator's `SELECT` at
`src/server.js:294-315`: visit columns denormalized with the joined
visitor and executive/user fields.  Note it does not select
`approval_status`. -/
structure GateRow where
  id : Nat
  code : String
  date : Nat
  time_from : String
  time_to : String
  purpose : String
  status : String
  actual_checkin : Option Nat
  executive_id : String
  visitor_name : String
  visitor_phone : String
  visitor_company : Option String
  visitor_email : Option String
  executive_name : String
  executive_department : String
deriving DecidableEq, Repr

/-- Assemble the validator's row from a visit and its joined visitor and
executive rows. -/
def mkGateRow (v : Visit) (w : Visitor) (e : Executive) : GateRow :=
  { id := v.id
    code := v.visit_code
    date := v.scheduled_date
    time_from := v.scheduled_time_from
    time_to := v.scheduled_time_to
    purpose := v.purpose_of_visit
    status := v.visit_status
    actual_checkin := v.actual_checkin_time
    executive_id := v.executive_id
    visitor_name := w.full_name
    visitor_phone := w.phone
    visitor_company := w.company
    visitor_email := w.email
    executive_name := e.user_full_name
    executive_department := e.user_department }

/-- The validator's lookup: find the visit with the scanned code and inner
join its visitor and executive rows (`JOIN`s at `src/server.js:311-313`). -/
def gateLookup (db : DB) (code : String) : Option GateRow :=
  match db.visits.find? (fun v => v.visit_code == code) with
  | none => none
  | some v =>
    match db.visitors.find? (fun w => w.id == v.visitor_id),
          db.executives.find? (fun e => e.id == v.executive_id) with
    | some w, some e => some (mkGateRow v w e)
    | _, _ => none

/-- The validator's JSON response: `{valid, error?, visit?}`. -/
structure ValidationOutcome where
  valid : Bool
  error : Option String
  visit : Option GateRow
deriving DecidableEq, Repr

/-- Route `POST /api/visits/validate` (`src/server.js:290-353`): no row → not
found with no payload; scheduled date strictly before today (date-only)
→ expired with payload; status `cancelled` → cancelled with payload;
otherwise valid with payload.  `today` is the current day ordinal with
the time-of-day zeroed (`today.setHours(0,0,0,0)`). -/
def validateCode (db : DB) (today : Nat) (code : String) : ValidationOutcome :=
  match gateLookup db code with
  | none => { valid := false, error := some "Visit not found", visit := none }
  | some row =>
    if row.date < today then
      { valid := false, error := some "This pass has expired", visit := some row }
    else if row.status == "cancelled" then
      { valid := false, error := some "This pass has been cancelled", visit := some row }
    else
      { valid := true, error := none, visit := some row }

/-! ## Visit creation (`POST /api/visits`) -/

/-- The JSON value supplied as `executive_id` in the request body:
a number, a string, `null`, or absent (`undefined`). -/
inductive JVal where
  | jnum (n : Int)
  | jstr (s : String)
  | jnull
  | jundef
deriving DecidableEq, Repr

/-- The `visitor` object of the request body; each field may be absent. -/
structure VisitorReq where
  name : Option String
  email : Option String
  phone : Option String
  company : Option String
deriving DecidableEq, Repr

/-- How a `createVisit` attempt fails.  `typeErr` is the JS `TypeError`
thrown by `executive_id.includes('-')` when `executive_id` is neither a
number nor a string; all failures surface as the one generic 500
`Failed to create visit` response after `ROLLBACK`
(`src/server.js:223-227`). -/
inductive CreateErr where
  | typeErr
  | noExecutives
  | visitorDataInvalid
  | persistenceErr
deriving DecidableEq, Repr

/-- The query `SELECT id FROM executives LIMIT 1` (`src/server.js:149`): the first
stored executive row, with no `is_active` filter and no ordering; the
route throws `No executives found in database` when the table is empty. -/
def pickFirstExec (db : DB) : Except CreateErr String :=
  match db.executives.head? with
  | some e => Except.ok e.id
  | none => Except.error CreateErr.noExecutives

/-- The legacy-id normalization at `src/server.js:148-156`:
`typeof executive_id === 'number' || !executive_id.includes('-')` falls
back to the first stored executive; `.includes` on `null`/`undefined`
throws a `TypeError`. -/
def normalizeExecId (db : DB) : JVal → Except CreateErr String
  | JVal.jnum _ => pickFirstExec db
  | JVal.jstr s => if s.data.contains '-' then Except.ok s else pickFirstExec db
  | JVal.jnull => Except.error CreateErr.typeErr
  | JVal.jundef => Except.error CreateErr.typeErr

/-- The `executive_id` supplied is a legacy id: a number, or a string not
containing a dash (the negation of the UUID shape test). -/
def isLegacyId : JVal → Bool
  | JVal.jnum _ => true
  | JVal.jstr s => !s.data.contains '-'
  | _ => false

/-- The visitor-directory step of `src/server.js:159-181`: look up by
phone; if found, overwrite name/email/company and refresh `updated_at`;
otherwise insert a new visitor row.  Returns the store and the visitor id. -/
def resolveVisitor (db : DB) (nm : String) (em : Option String) (ph : String)
    (co : Option String) (now : Nat) : DB × Nat :=
  match db.visitors.find? (fun w => w.phone == ph) with
  | some w =>
    let w' : Visitor :=
      { w with full_name := nm, email := em, company := co, updated_at := now }
    ({ db with visitors := db.visitors.map (fun x => if x.id == w.id then w' else x) },
     w.id)
  | none =>
    let w : Visitor :=
      { id := db.nextVisitorId, full_name := nm, email := em, phone := ph,
        company := co, created_at := now, updated_at := now }
    ({ db with visitors := db.visitors ++ [w],
               nextVisitorId := db.nextVisitorId + 1 },
     w.id)

/-- Modelled from the spec: the storage schema enforces the visit's
foreign key to `executives` (spec §3 "foreign keys: visitor id, executive
id"); inserting a visit whose executive id matches no stored executive
fails inside the transaction (`PersistenceError`). -/
def execExists (db : DB) (execId : String) : Bool :=
  (db.executives.find? (fun e => e.id == execId)).isSome

/-- The body of the `POST /api/visits` transaction
(`src/server.js:145-196`), between `BEGIN` and `COMMIT`: normalize the
executive id, resolve the visitor, insert the visit row with
`visit_status = 'scheduled'` and `approval_status = 'pending'`
(`src/server.js:183-194`).  Two pieces are modelled from the spec because
the SQL DDL is not under `src/`: the visitor's `full_name` and `phone` are
required (`NOT NULL`), so a create attempt missing them fails inside the
transaction (`VisitorDataInvalid`, spec §4.3/§7); and the visit code is
assigned by the storage layer's trigger, which produces the next code by
the §4.2 algorithm at insert time. -/
def createVisitTx (db : DB) (vr : VisitorReq) (eid : JVal) (date : Nat)
    (tf tt purpose visit_type : String) (year now : Nat) :
    Except CreateErr (DB × Visit) :=
  match normalizeExecId db eid with
  | Except.error e => Except.error e
  | Except.ok execId =>
    match vr.name, vr.phone with
    | some nm, some ph =>
      let p := resolveVisitor db nm vr.email ph vr.company now
      if execExists p.1 execId then
        let v : Visit :=
          { id := p.1.nextVisitId
            visit_code := generateCode (p.1.visits.map (fun x => x.visit_code)) year
            visitor_id := p.2
            executive_id := execId
            scheduled_date := date
            scheduled_time_from := tf
            scheduled_time_to := tt
            purpose_of_visit := purpose
            visit_type := visit_type
            visit_status := "scheduled"
            approval_status := "pending"
            approved_at := none
            rejection_reason := none
            actual_checkin_time := none
            actual_checkout_time := none
            created_at := now
            updated_at := now }
        Except.ok ({ p.1 with visits := p.1.visits ++ [v],
                              nextVisitId := p.1.nextVisitId + 1 }, v)
      else Except.error CreateErr.persistenceErr
    | _, _ => Except.error CreateErr.visitorDataInvalid

/-- Route `POST /api/visits` (`src/server.js:138-228`): run the transaction;
on any failure `ROLLBACK` restores the store to its pre-`BEGIN` state and
the error is surfaced (`src/server.js:223-227`). -/
def createVisit (db : DB) (vr : VisitorReq) (eid : JVal) (date : Nat)
    (tf tt purpose visit_type : String) (year now : Nat) :
    DB × Except CreateErr Visit :=
  match createVisitTx db vr eid date tf tt purpose visit_type year now with
  | Except.ok r => (r.1, Except.ok r.2)
  | Except.error e => (db, Except.error e)

/-! ## Visit update, check-in, check-out -/

/-- How `PUT /api/visits/:id`, check-in and check-out fail. -/
inductive UpdateErr where
  | noFields
  | visitNotFound
deriving DecidableEq, Repr

/-- The request body of `PUT /api/visits/:id`: the four recognized keys
(each possibly absent) plus the names of any unrecognized keys, which the
route never reads (`src/server.js:241-259` tests only `approval`,
`approvedAt`, `status`, `rejection_reason`). -/
structure UpdateReq where
  approval : Option String
  approvedAt : Option Nat
  status : Option String
  rejection_reason : Option String
  otherKeys : List String
deriving DecidableEq, Repr

/-- The test `fields.length === 0` at `src/server.js:261`: none of the four
recognized keys was provided. -/
def isEmptyUpdate (u : UpdateReq) : Bool :=
  u.approval.isNone && u.approvedAt.isNone && u.status.isNone &&
    u.rejection_reason.isNone

/-- Apply the dynamic `SET` list built at `src/server.js:241-266` to one
visit row: each provided field overwrites its column, and `updated_at`
is always refreshed. -/
def applyUpdates (v : Visit) (u : UpdateReq) (now : Nat) : Visit :=
  { v with
    approval_status := u.approval.getD v.approval_status
    approved_at := match u.approvedAt with
                   | some t => some t
                   | none => v.approved_at
    visit_status := u.status.getD v.visit_status
    rejection_reason := match u.rejection_reason with
                        | some r => some r
                        | none => v.rejection_reason
    updated_at := now }

/-- Route `PUT /api/visits/:id` (`src/server.js:231-287`): no recognized field →
400 `No valid fields to update` with nothing written; no matching row →
404 `Visit not found`; otherwise write the provided fields plus
`updated_at = NOW()` to the matching row. -/
def updateVisit (db : DB) (id : Nat) (u : UpdateReq) (now : Nat) :
    DB × Except UpdateErr Visit :=
  if isEmptyUpdate u then (db, Except.error UpdateErr.noFields)
  else
    match db.visits.find? (fun x => x.id == id) with
    | none => (db, Except.error UpdateErr.visitNotFound)
    | some v =>
      let v' := applyUpdates v u now
      ({ db with visits := db.visits.map (fun w => if w.id == id then v' else w) },
       Except.ok v')

/-- Route `POST /api/visits/:id/checkin` (`src/server.js:356-378`):
unconditionally set `visit_status = 'checked_in'` and
`actual_checkin_time = NOW()` on the matching row; 404 if none. -/
def checkIn (db : DB) (id : Nat) (now : Nat) : DB × Except UpdateErr Visit :=
  match db.visits.find? (fun x => x.id == id) with
  | none => (db, Except.error UpdateErr.visitNotFound)
  | some v =>
    let v' : Visit := { v with visit_status := "checked_in",
                               actual_checkin_time := some now }
    ({ db with visits := db.visits.map (fun w => if w.id == id then v' else w) },
     Except.ok v')

/-- Route `POST /api/visits/:id/checkout` (`src/server.js:381-403`):
unconditionally set `visit_status = 'checked_out'` and
`actual_checkout_time = NOW()` on the matching row; 404 if none. -/
def checkOut (db : DB) (id : Nat) (now : Nat) : DB × Except UpdateErr Visit :=
  match db.visits.find? (fun x => x.id == id) with
  | none => (db, Except.error UpdateErr.visitNotFound)
  | some v =>
    let v' : Visit := { v with visit_status := "checked_out",
                               actual_checkout_time := some now }
    ({ db with visits := db.visits.map (fun w => if w.id == id then v' else w) },
     Except.ok v')

/-! ## Concrete fixtures used to exercise the operations -/

/-- A complete visitor object as sent in a create request. -/
def vrOk : VisitorReq :=
  { name := some "Ann Lee", email := some "ann@example.com",
    phone := some "555-0001", company := none }

/-- A visitor object missing its required `name` field. -/
def vrNoName : VisitorReq :=
  { name := none, email := some "ann@example.com",
    phone := some "555-0001", company := none }

/-- An active executive row. -/
def execActive : Executive :=
  { id := "exec-1", is_active := true,
    user_full_name := "Bob Roy", user_department := "Ops" }

/-- An inactive executive row (same id, `is_active = false`). -/
def execInactive : Executive :=
  { id := "exec-1", is_active := false,
    user_full_name := "Bob Roy", user_department := "Ops" }

/-- A store holding one active executive and nothing else. -/
def dbActive : DB :=
  { visitors := [], executives := [execActive], visits := [],
    nextVisitorId := 1, nextVisitId := 1 }

/-- A store whose only executive is inactive. -/
def dbInactiveExec : DB :=
  { visitors := [], executives := [execInactive], visits := [],
    nextVisitorId := 1, nextVisitId := 1 }

/-- A store with no executives at all. -/
def dbNoExec : DB :=
  { visitors := [], executives := [], visits := [],
    nextVisitorId := 1, nextVisitId := 1 }

/-- The visit row produced by a successful create against `dbActive`. -/
def visitCreated : Visit :=
  { id := 1, visit_code := "GC-2025-000001", visitor_id := 1,
    executive_id := "exec-1", scheduled_date := 5,
    scheduled_time_from := "09:00", scheduled_time_to := "10:00",
    purpose_of_visit := "meet", visit_type := "walk-in",
    visit_status := "scheduled", approval_status := "pending",
    approved_at := none, rejection_reason := none,
    actual_checkin_time := none, actual_checkout_time := none,
    created_at := 50, updated_at := 50 }

/-- The visit row produced by the legacy-id create against `dbInactiveExec`. -/
def visitSubstituted : Visit :=
  { visitCreated with visit_type := "scheduled" }

/-- A visitor row as stored. -/
def annRow : Visitor :=
  { id := 1, full_name := "Ann Lee", email := some "ann@example.com",
    phone := "555-0001", company := none, created_at := 50, updated_at := 50 }

/-- A visit that has already been checked in (timestamp set, status moved). -/
def visitCheckedIn : Visit :=
  { visitCreated with visit_status := "checked_in",
                      approval_status := "approved", approved_at := some 60,
                      actual_checkin_time := some 100, updated_at := 100 }

/-- A store holding the already-checked-in visit. -/
def dbCheckedIn : DB :=
  { visitors := [annRow], executives := [execActive],
    visits := [visitCheckedIn], nextVisitorId := 2, nextVisitId := 2 }

/-- A store with one scheduled, pending visit for the gate to scan. -/
def dbGate : DB :=
  { visitors := [annRow], executives := [execActive],
    visits := [visitCreated], nextVisitorId := 2, nextVisitId := 2 }

/-- An update body with none of the four recognized keys. -/
def emptyUpd : UpdateReq :=
  { approval := none, approvedAt := none, status := none,
    rejection_reason := none, otherKeys := [] }

/-- An approval decision: sets `approval` and `approvedAt`. -/
def apprUpd : UpdateReq :=
  { approval := some "approved", approvedAt := some 60, status := none,
    rejection_reason := none, otherKeys := [] }

/-- An update body carrying only keys the route does not recognize. -/
def unknownKeysUpd : UpdateReq :=
  { approval := none, approvedAt := none, status := none,
    rejection_reason := none, otherKeys := ["visit_code", "purpose"] }

end GuestPass

namespace GuestPass

/-! ## Helper lemmas -/

/-- Changing every stored visit's `approval_status` does not change the
validator's lookup: the scanned code, the joined rows and the selected
columns never involve it. -/
theorem gateLookup_approval_inv (db : DB) (a code : String) :
    gateLookup
      { db with visits := db.visits.map (fun v => { v with approval_status := a }) }
      code = gateLookup db code := by
  unfold gateLookup
  rw [List.find?_map]
  have hp : ((fun v : Visit => v.visit_code == code) ∘
      (fun v => { v with approval_status := a })) =
      (fun v : Visit => v.visit_code == code) := by
    funext v; rfl
  rw [hp]
  cases db.visits.find? (fun v => v.visit_code == code) <;> rfl

/-- C1: `validateCode` applies its rules in a fixed order, first match
winning: no visit with the code → invalid "not found" with no payload;
scheduled date strictly before today (date-only) → invalid "expired" with
payload; status `cancelled` → invalid "cancelled" with payload; otherwise
valid with payload.  Approval status is never consulted: rewriting every
visit's approval status leaves the validation result unchanged. -/
theorem c1_validate_rule_order (db : DB) (today : Nat) (code : String) :
    (db.visits.find? (fun v => v.visit_code == code) = none →
      validateCode db today code =
        { valid := false, error := some "Visit not found", visit := none })
  ∧ (∀ v w e,
      db.visits.find? (fun x => x.visit_code == code) = some v →
      db.visitors.find? (fun x => x.id == v.visitor_id) = some w →
      db.executives.find? (fun x => x.id == v.executive_id) = some e →
      (v.scheduled_date < today →
        validateCode db today code =
          { valid := false, error := some "This pass has expired",
            visit := some (mkGateRow v w e) })
      ∧ (today ≤ v.scheduled_date → v.visit_status = "cancelled" →
        validateCode db today code =
          { valid := false, error := some "This pass has been cancelled",
            visit := some (mkGateRow v w e) })
      ∧ (today ≤ v.scheduled_date → v.visit_status ≠ "cancelled" →
        validateCode db today code =
          { valid := true, error := none, visit := some (mkGateRow v w e) }))
  ∧ (∀ a, validateCode
      { db with visits := db.visits.map (fun v => { v with approval_status := a }) }
      today code = validateCode db today code) := by
  refine ⟨?_, ?_, ?_⟩
  · intro h
    simp [validateCode, gateLookup, h]
  · intro v w e h1 h2 h3
    refine ⟨?_, ?_, ?_⟩
    · intro hd
      simp [validateCode, gateLookup, h1, h2, h3, mkGateRow, hd]
    · intro hd hc
      have hnd : ¬ v.scheduled_date < today := Nat.not_lt.mpr hd
      simp [validateCode, gateLookup, h1, h2, h3, mkGateRow, hnd, hc]
    · intro hd hc
      have hnd : ¬ v.scheduled_date < today := Nat.not_lt.mpr hd
      simp [validateCode, gateLookup, h1, h2, h3, mkGateRow, hnd, hc]
  · intro a
    unfold validateCode
    rw [gateLookup_approval_inv]

/-- C1 witness: on a store with one scheduled pending visit for today or
later, the scan is valid; scanning an unknown code is "not found". -/
theorem c1_validate_rule_order_witness :
    validateCode dbGate 3 "GC-2025-000001" =
      { valid := true, error := none,
        visit := some (mkGateRow visitCreated annRow execActive) }
  ∧ validateCode dbGate 3 "GC-1999-000001" =
      { valid := false, error := some "Visit not found", visit := none } :=
  ⟨((c1_validate_rule_order dbGate 3 "GC-2025-000001").2.1 visitCreated annRow
      execActive (by rfl) (by rfl) (by rfl)).2.2 (by decide) (by decide),
   (c1_validate_rule_order dbGate 3 "GC-1999-000001").1 (by rfl)⟩

/-- C2: the generator takes the lexicographically greatest stored code
with prefix `GC-<year>-`; when its trailing six characters are a digit
string `d` the result is `GC-<year>-` followed by `d + 1` zero-padded to
six digits, and when no stored code has the prefix the result is
`GC-<year>-000001`.  In particular a greatest stored code of
`GC-2025-000007` yields `GC-2025-000008`. -/
theorem c2_generate_next_code (codes : List String) (year : Nat) :
    (maxCode (codes.filter (fun c => hasPre (codePre year) c)) = none →
      generateCode codes year = codePre year ++ "000001")
  ∧ (∀ c d,
      maxCode (codes.filter (fun c => hasPre (codePre year) c)) = some c →
      matchTrailing6 c = some d →
      generateCode codes year =
        codePre year ++ padStart6 (toString (digitsToNat d + 1)))
  ∧ generateCode ["GC-2025-000007"] 2025 = "GC-2025-000008" := by
  refine ⟨?_, ?_, by rfl⟩
  · intro h
    simp only [generateCode, h]
    rfl
  · intro c d h1 h2
    simp only [generateCode, h1, h2]

/-- C2 witness: with `GC-2025-000003` the greatest stored 2025 code, the
generator yields `GC-2025-000004`. -/
theorem c2_generate_next_code_witness :
    maxCode ((["GC-2025-000003", "XX-2025"].filter
        (fun c => hasPre (codePre 2025) c))) = some "GC-2025-000003"
  ∧ generateCode ["GC-2025-000003", "XX-2025"] 2025 = "GC-2025-000004" :=
  ⟨by rfl,
   (c2_generate_next_code ["GC-2025-000003", "XX-2025"] 2025).2.1
     "GC-2025-000003" "000003" (by rfl) (by rfl)⟩

/-- Inversion for a successful create: the executive id was normalized
successfully and is the one stored on the row, the row starts in
`scheduled`/`pending`, and it is persisted in the resulting store. -/
theorem createVisit_ok_shape (db : DB) (vr : VisitorReq) (eid : JVal)
    (date : Nat) (tf tt purpose vt : String) (year now : Nat) (db' : DB)
    (v : Visit)
    (h : createVisit db vr eid date tf tt purpose vt year now =
      (db', Except.ok v)) :
    (∃ execId, normalizeExecId db eid = Except.ok execId ∧
      v.executive_id = execId)
  ∧ v.visit_status = "scheduled" ∧ v.approval_status = "pending"
  ∧ v ∈ db'.visits := by
  unfold createVisit at h
  cases htx : createVisitTx db vr eid date tf tt purpose vt year now with
  | error e => rw [htx] at h; simp at h
  | ok r =>
    rw [htx] at h
    simp only [Prod.mk.injEq, Except.ok.injEq] at h
    obtain ⟨hdb, hv⟩ := h
    unfold createVisitTx at htx
    cases hn : normalizeExecId db eid with
    | error e => rw [hn] at htx; simp at htx
    | ok execId =>
      rw [hn] at htx
      cases hname : vr.name with
      | none => rw [hname] at htx; simp at htx
      | some nm =>
        cases hphone : vr.phone with
        | none => rw [hname, hphone] at htx; simp at htx
        | some ph =>
          rw [hname, hphone] at htx
          by_cases hex :
            execExists (resolveVisitor db nm vr.email ph vr.company now).1 execId
          · simp only [hex, if_true, Except.ok.injEq] at htx
            subst htx
            subst hdb
            subst hv
            refine ⟨⟨execId, rfl, rfl⟩, rfl, rfl, ?_⟩
            simp
          · simp only [hex, if_false] at htx
            simp at htx

/-- C3: every successful `createVisit`, whatever the `visit_type`
(`"scheduled"` or `"walk-in"`), persists a visit row with
`visit_status = 'scheduled'` and `approval_status = 'pending'`. -/
theorem c3_create_initial_state (db : DB) (vr : VisitorReq) (eid : JVal)
    (date : Nat) (tf tt purpose vt : String) (year now : Nat) (db' : DB)
    (v : Visit)
    (h : createVisit db vr eid date tf tt purpose vt year now =
      (db', Except.ok v)) :
    v.visit_status = "scheduled" ∧ v.approval_status = "pending"
  ∧ v ∈ db'.visits :=
  (createVisit_ok_shape db vr eid date tf tt purpose vt year now db' v h).2

/-- C3 witness: a successful walk-in create against `dbActive` yields a
`scheduled`/`pending` row, persisted. -/
theorem c3_create_initial_state_witness :
    visitCreated.visit_status = "scheduled"
  ∧ visitCreated.approval_status = "pending"
  ∧ visitCreated ∈ (createVisit dbActive vrOk (JVal.jstr "exec-1") 5 "09:00"
      "10:00" "meet" "walk-in" 2025 50).1.visits :=
  c3_create_initial_state dbActive vrOk (JVal.jstr "exec-1") 5 "09:00" "10:00"
    "meet" "walk-in" 2025 50
    (createVisit dbActive vrOk (JVal.jstr "exec-1") 5 "09:00" "10:00" "meet"
      "walk-in" 2025 50).1
    visitCreated (by rfl)

/-- C4: a failed `createVisit` rolls the store back completely: the
resulting store is the pre-transaction store, so no visitor row and no
visit row from the attempt survives. -/
theorem c4_create_rollback (db : DB) (vr : VisitorReq) (eid : JVal)
    (date : Nat) (tf tt purpose vt : String) (year now : Nat) (db' : DB)
    (e : CreateErr)
    (h : createVisit db vr eid date tf tt purpose vt year now =
      (db', Except.error e)) :
    db' = db ∧ db'.visitors = db.visitors ∧ db'.visits = db.visits := by
  unfold createVisit at h
  cases htx : createVisitTx db vr eid date tf tt purpose vt year now with
  | ok r => rw [htx] at h; simp at h
  | error e' =>
    rw [htx] at h
    simp only [Prod.mk.injEq] at h
    obtain ⟨hdb, _⟩ := h
    subst hdb
    exact ⟨rfl, rfl, rfl⟩

/-- C4 witness: a create attempt with the required visitor name missing
fails and leaves the store exactly as it was. -/
theorem c4_create_rollback_witness :
    dbActive = dbActive ∧ dbActive.visitors = dbActive.visitors
  ∧ dbActive.visits = dbActive.visits :=
  c4_create_rollback dbActive vrNoName (JVal.jstr "exec-1") 5 "09:00" "10:00"
    "meet" "scheduled" 2025 50 dbActive CreateErr.visitorDataInvalid (by rfl)

/-- C10: a create request whose `executive_id` is neither a number nor a
string (absent/`undefined` or `null`) fails via the generic create-visit
error path — the `TypeError` from `.includes('-')` — with the store rolled
back, not with `NoExecutivesAvailable` and not with the visitor-data
validation error. -/
theorem c10_exec_shape_type_error (db : DB) (vr : VisitorReq) (date : Nat)
    (tf tt purpose vt : String) (year now : Nat) :
    createVisit db vr JVal.jnull date tf tt purpose vt year now =
      (db, Except.error CreateErr.typeErr)
  ∧ createVisit db vr JVal.jundef date tf tt purpose vt year now =
      (db, Except.error CreateErr.typeErr)
  ∧ CreateErr.typeErr ≠ CreateErr.noExecutives
  ∧ CreateErr.typeErr ≠ CreateErr.visitorDataInvalid := by
  refine ⟨?_, ?_, by simp, by simp⟩
  · simp [createVisit, createVisitTx, normalizeExecId]
  · simp [createVisit, createVisitTx, normalizeExecId]

/-- A legacy-shaped executive id always sends the route to the
`SELECT id FROM executives LIMIT 1` fallback. -/
theorem normalizeExecId_legacy (db : DB) (eid : JVal)
    (h : isLegacyId eid = true) :
    normalizeExecId db eid = pickFirstExec db := by
  cases eid with
  | jnum n => rfl
  | jstr s =>
    simp only [isLegacyId, Bool.not_eq_true'] at h
    show (if s.data.contains '-' = true then Except.ok s else pickFirstExec db)
      = pickFirstExec db
    rw [h]
    simp
  | jnull => simp [isLegacyId] at h
  | jundef => simp [isLegacyId] at h

/-- C5 counterexample: the fallback does not restrict itself to active
executives.  On a store whose only executive is inactive, a create with a
legacy numeric id succeeds with that inactive executive substituted,
instead of failing with `NoExecutivesAvailable` as the claim requires
when no active executive exists. -/
theorem c5_counterexample :
    dbInactiveExec.executives.all (fun e => !e.is_active) = true
  ∧ (createVisit dbInactiveExec vrOk (JVal.jnum 3) 5 "09:00" "10:00" "meet"
      "scheduled" 2025 50).2 = Except.ok visitSubstituted
  ∧ (createVisit dbInactiveExec vrOk (JVal.jnum 3) 5 "09:00" "10:00" "meet"
      "scheduled" 2025 50).2 ≠ Except.error CreateErr.noExecutives
  ∧ visitSubstituted.executive_id = execInactive.id
  ∧ execInactive.is_active = false := by
  refine ⟨rfl, rfl, ?_, rfl, rfl⟩
  show Except.ok visitSubstituted ≠ Except.error CreateErr.noExecutives
  simp

/-- C5 (amended): with a legacy executive id (a number or a non-dash
string), `createVisit` substitutes the id of the first stored executive,
active or not; it fails with `NoExecutivesAvailable` exactly when the
executives table is empty. -/
theorem c5_legacy_fallback_any_executive (db : DB) (vr : VisitorReq)
    (eid : JVal) (date : Nat) (tf tt purpose vt : String) (year now : Nat)
    (hleg : isLegacyId eid = true) :
    (db.executives = [] →
      createVisit db vr eid date tf tt purpose vt year now =
        (db, Except.error CreateErr.noExecutives))
  ∧ (∀ ex db' v, db.executives.head? = some ex →
      createVisit db vr eid date tf tt purpose vt year now =
        (db', Except.ok v) →
      v.executive_id = ex.id) := by
  constructor
  · intro hemp
    have h1 : normalizeExecId db eid = Except.error CreateErr.noExecutives := by
      rw [normalizeExecId_legacy db eid hleg]
      simp [pickFirstExec, hemp]
    simp [createVisit, createVisitTx, h1]
  · intro ex db' v hhead h
    obtain ⟨⟨execId, hn, hve⟩, _⟩ :=
      createVisit_ok_shape db vr eid date tf tt purpose vt year now db' v h
    have h2 : normalizeExecId db eid = Except.ok ex.id := by
      rw [normalizeExecId_legacy db eid hleg]
      simp [pickFirstExec, hhead]
    rw [h2] at hn
    injection hn with hn
    rw [hve, ← hn]

/-- C5 amended-claim witness: with no executives the legacy create fails
with `NoExecutivesAvailable`; against the store whose first (inactive)
executive is `exec-1`, the created row carries `exec-1`. -/
theorem c5_legacy_fallback_any_executive_witness :
    createVisit dbNoExec vrOk (JVal.jnum 3) 5 "09:00" "10:00" "meet"
      "scheduled" 2025 50 = (dbNoExec, Except.error CreateErr.noExecutives)
  ∧ visitSubstituted.executive_id = execInactive.id :=
  ⟨(c5_legacy_fallback_any_executive dbNoExec vrOk (JVal.jnum 3) 5 "09:00"
      "10:00" "meet" "scheduled" 2025 50 (by rfl)).1 rfl,
   (c5_legacy_fallback_any_executive dbInactiveExec vrOk (JVal.jnum 3) 5
      "09:00" "10:00" "meet" "scheduled" 2025 50 (by rfl)).2 execInactive
     (createVisit dbInactiveExec vrOk (JVal.jnum 3) 5 "09:00" "10:00" "meet"
        "scheduled" 2025 50).1
     visitSubstituted (by rfl) (by rfl)⟩

/-- C6: an update with none of the four recognized fields fails with
`NoFieldsProvided` and leaves the store — in particular every stored
`updated_at` — untouched; a non-empty update on an existing visit writes
the provided fields together with a refreshed `updated_at` in the same
write. -/
theorem c6_update_empty_or_refresh (db : DB) (id : Nat) (u : UpdateReq)
    (now : Nat) :
    (u.approval = none → u.approvedAt = none → u.status = none →
     u.rejection_reason = none →
      updateVisit db id u now = (db, Except.error UpdateErr.noFields))
  ∧ (¬ (u.approval = none ∧ u.approvedAt = none ∧ u.status = none ∧
        u.rejection_reason = none) →
     ∀ v, db.visits.find? (fun x => x.id == id) = some v →
      updateVisit db id u now =
        ({ db with visits := db.visits.map (fun w =>
            if w.id == id then applyUpdates v u now else w) },
         Except.ok (applyUpdates v u now))
      ∧ (applyUpdates v u now).updated_at = now) := by
  constructor
  · intro h1 h2 h3 h4
    have he : isEmptyUpdate u = true := by
      simp [isEmptyUpdate, h1, h2, h3, h4]
    simp [updateVisit, he]
  · intro hne v hv
    have he : isEmptyUpdate u = false := by
      cases hcase : isEmptyUpdate u
      · rfl
      · exfalso
        apply hne
        simp only [isEmptyUpdate, Bool.and_eq_true,
          Option.isNone_iff_eq_none] at hcase
        tauto
    refine ⟨?_, rfl⟩
    simp [updateVisit, he, hv]

/-- C6 witness: the empty body fails with `NoFieldsProvided` and the
store is untouched; an approval update on the stored visit refreshes
`updated_at` to the write time. -/
theorem c6_update_empty_or_refresh_witness :
    updateVisit dbGate 1 emptyUpd 99 = (dbGate, Except.error UpdateErr.noFields)
  ∧ (applyUpdates visitCreated apprUpd 99).updated_at = 99 :=
  ⟨(c6_update_empty_or_refresh dbGate 1 emptyUpd 99).1 rfl rfl rfl rfl,
   ((c6_update_empty_or_refresh dbGate 1 apprUpd 99).2
      (by simp [apprUpd]) visitCreated (by rfl)).2⟩

/-- C7: a create request missing a required visitor field never persists
anything — the resulting store is the pre-transaction store and the result
is never a success — and whenever the executive-id step does not itself
fail first, the failure is the visitor-data one. -/
theorem c7_missing_visitor_fields (db : DB) (vr : VisitorReq) (eid : JVal)
    (date : Nat) (tf tt purpose vt : String) (year now : Nat)
    (hmiss : vr.name = none ∨ vr.phone = none) :
    (createVisit db vr eid date tf tt purpose vt year now).1 = db
  ∧ (∀ v, (createVisit db vr eid date tf tt purpose vt year now).2 ≠
      Except.ok v)
  ∧ (∀ s, normalizeExecId db eid = Except.ok s →
      (createVisit db vr eid date tf tt purpose vt year now).2 =
        Except.error CreateErr.visitorDataInvalid) := by
  have key : ∀ s, normalizeExecId db eid = Except.ok s →
      createVisitTx db vr eid date tf tt purpose vt year now =
        Except.error CreateErr.visitorDataInvalid := by
    intro s hs
    unfold createVisitTx
    rw [hs]
    rcases hmiss with h | h
    · cases hph : vr.phone <;> simp [h]
    · cases hnm : vr.name <;> simp [h]
  cases hn : normalizeExecId db eid with
  | error e =>
    have htx : createVisitTx db vr eid date tf tt purpose vt year now =
        Except.error e := by
      unfold createVisitTx; rw [hn]
    refine ⟨?_, ?_, ?_⟩
    · simp [createVisit, htx]
    · intro v; simp [createVisit, htx]
    · intro s hs
      cases hs
  | ok s0 =>
    have htx := key s0 hn
    refine ⟨?_, ?_, ?_⟩
    · simp [createVisit, htx]
    · intro v; simp [createVisit, htx]
    · intro s hs; simp [createVisit, htx]

/-- C7 witness: a create with the visitor name absent against the active
store changes nothing and fails with the visitor-data error. -/
theorem c7_missing_visitor_fields_witness :
    (createVisit dbActive vrNoName (JVal.jstr "exec-1") 5 "09:00" "10:00"
      "meet" "scheduled" 2025 50).1 = dbActive
  ∧ (createVisit dbActive vrNoName (JVal.jstr "exec-1") 5 "09:00" "10:00"
      "meet" "scheduled" 2025 50).2 =
      Except.error CreateErr.visitorDataInvalid :=
  ⟨(c7_missing_visitor_fields dbActive vrNoName (JVal.jstr "exec-1") 5 "09:00"
      "10:00" "meet" "scheduled" 2025 50 (Or.inl rfl)).1,
   (c7_missing_visitor_fields dbActive vrNoName (JVal.jstr "exec-1") 5 "09:00"
      "10:00" "meet" "scheduled" 2025 50 (Or.inl rfl)).2.2 "exec-1" (by rfl)⟩

/-- C8 counterexample: check-in is not write-once.  On a visit already in
status `checked_in` with `actual_checkin_time = 100`, a second check-in at
time 200 overwrites the timestamp to 200 and re-runs the transition, so
`actual_checkin_time` is not set at most once. -/
theorem c8_counterexample :
    visitCheckedIn.visit_status ≠ "scheduled"
  ∧ visitCheckedIn.actual_checkin_time = some 100
  ∧ (checkIn dbCheckedIn 1 200).2 =
      Except.ok { visitCheckedIn with actual_checkin_time := some 200 }
  ∧ (checkIn dbCheckedIn 1 200).1.visits =
      [{ visitCheckedIn with actual_checkin_time := some 200 }]
  ∧ ({ visitCheckedIn with actual_checkin_time := some 200 }).actual_checkin_time
      ≠ some 100 :=
  ⟨by decide, rfl, rfl, rfl, by decide⟩

/-- C8 (amended): `checkIn` on an existing visit unconditionally sets
`visit_status = 'checked_in'` and `actual_checkin_time` to the current
time, regardless of the prior status or of an already-set timestamp
(which it overwrites); on an unknown id it fails with `VisitNotFound`. -/
theorem c8_checkin_unconditional (db : DB) (id now : Nat) :
    (db.visits.find? (fun x => x.id == id) = none →
      checkIn db id now = (db, Except.error UpdateErr.visitNotFound))
  ∧ (∀ v, db.visits.find? (fun x => x.id == id) = some v →
      checkIn db id now =
        ({ db with visits := db.visits.map (fun w => if w.id == id then
            { v with visit_status := "checked_in",
                     actual_checkin_time := some now } else w) },
         Except.ok { v with visit_status := "checked_in",
                            actual_checkin_time := some now })) := by
  constructor
  · intro h
    simp [checkIn, h]
  · intro v h
    simp [checkIn, h]

/-- C8 amended-claim witness: re-checking-in the already-checked-in visit
overwrites its timestamp with the new time. -/
theorem c8_checkin_unconditional_witness :
    checkIn dbCheckedIn 1 200 =
      ({ dbCheckedIn with visits := dbCheckedIn.visits.map (fun w =>
          if w.id == 1 then
            { visitCheckedIn with visit_status := "checked_in",
                                  actual_checkin_time := some 200 } else w) },
       Except.ok { visitCheckedIn with visit_status := "checked_in",
                                       actual_checkin_time := some 200 }) :=
  (c8_checkin_unconditional dbCheckedIn 1 200).2 visitCheckedIn (by rfl)

/-- C9: `updateVisit` ignores unrecognized body keys entirely (a body of
only unrecognized keys behaves like an empty one, failing with
`NoFieldsProvided`), and on an existing visit it can change only
`approval_status`, `approved_at`, `visit_status`, `rejection_reason` and
`updated_at`: every other column of the row is preserved, the visitor and
executive tables are untouched, and every other visit row survives
unchanged. -/
theorem c9_update_frame (db : DB) (id : Nat) (u : UpdateReq) (now : Nat) :
    (∀ ks, updateVisit db id { u with otherKeys := ks } now =
      updateVisit db id u now)
  ∧ (∀ ks, updateVisit db id
      { approval := none, approvedAt := none, status := none,
        rejection_reason := none, otherKeys := ks } now =
      (db, Except.error UpdateErr.noFields))
  ∧ (∀ v,
      (applyUpdates v u now).id = v.id
      ∧ (applyUpdates v u now).visit_code = v.visit_code
      ∧ (applyUpdates v u now).visitor_id = v.visitor_id
      ∧ (applyUpdates v u now).executive_id = v.executive_id
      ∧ (applyUpdates v u now).scheduled_date = v.scheduled_date
      ∧ (applyUpdates v u now).scheduled_time_from = v.scheduled_time_from
      ∧ (applyUpdates v u now).scheduled_time_to = v.scheduled_time_to
      ∧ (applyUpdates v u now).purpose_of_visit = v.purpose_of_visit
      ∧ (applyUpdates v u now).visit_type = v.visit_type
      ∧ (applyUpdates v u now).actual_checkin_time = v.actual_checkin_time
      ∧ (applyUpdates v u now).actual_checkout_time = v.actual_checkout_time
      ∧ (applyUpdates v u now).created_at = v.created_at)
  ∧ (updateVisit db id u now).1.visitors = db.visitors
  ∧ (updateVisit db id u now).1.executives = db.executives
  ∧ (∀ w, w ∈ db.visits → (w.id == id) = false →
      w ∈ (updateVisit db id u now).1.visits) := by
  refine ⟨fun ks => rfl, fun ks => rfl,
    fun v => ⟨rfl, rfl, rfl, rfl, rfl, rfl, rfl, rfl, rfl, rfl, rfl, rfl⟩,
    ?_, ?_, ?_⟩
  · by_cases he : isEmptyUpdate u
    · simp [updateVisit, he]
    · cases hf : db.visits.find? (fun x => x.id == id) <;>
        simp [updateVisit, he, hf]
  · by_cases he : isEmptyUpdate u
    · simp [updateVisit, he]
    · cases hf : db.visits.find? (fun x => x.id == id) <;>
        simp [updateVisit, he, hf]
  · intro w hw hwid
    by_cases he : isEmptyUpdate u
    · simpa [updateVisit, he] using hw
    · cases hf : db.visits.find? (fun x => x.id == id) with
      | none => simpa [updateVisit, he, hf] using hw
      | some v =>
        have hfw : (fun x : Visit => if x.id == id then applyUpdates v u now
            else x) w = w := by
          simp [hwid]
        have hmem := List.mem_map_of_mem
          (fun x : Visit => if x.id == id then applyUpdates v u now else x) hw
        rw [hfw] at hmem
        simpa [updateVisit, he, hf] using hmem

/-- C9 witness: a body of only unrecognized keys fails like an empty one,
and an update addressed to a different id leaves the stored visit present
and unchanged. -/
theorem c9_update_frame_witness :
    updateVisit dbGate 1 unknownKeysUpd 99 =
      (dbGate, Except.error UpdateErr.noFields)
  ∧ visitCheckedIn ∈ (updateVisit dbCheckedIn 7 apprUpd 99).1.visits :=
  ⟨(c9_update_frame dbGate 1 unknownKeysUpd 99).2.1 ["visit_code", "purpose"],
   (c9_update_frame dbCheckedIn 7 apprUpd 99).2.2.2.2.2 visitCheckedIn
     (by simp [dbCheckedIn]) (by decide)⟩

end GuestPass
